import Mathlib

/-!
Verification of the quiz bot (`bot.py`) against its specification.

Python strings are embedded as `List Char` (a Python `str` is a sequence of
unicode code points).  Python string primitives used by the program
(`strip`, `startswith`, `replace`, `split`, `lower`, `len`, `==`, `in`) are
translated below as total Lean functions with the same semantics; Python
whitespace is modelled by `Char.isWhitespace` (space, tab, CR, LF), which
covers every character the program ever produces or tests.
Python dicts keyed by strings are embedded as insertion-ordered association
lists without duplicate keys; `d[k] = v` updates the first binding in place
or appends a fresh one, exactly as a dict preserves insertion order.
-/

namespace QuizBot

/-- A Python string: a sequence of unicode code points. -/
abbrev PyStr := List Char

/-- Convert a Lean string literal to the embedded Python string type. -/
def pys (s : String) : PyStr := s.toList

/-- The apostrophe character (code point 39), written numerically. -/
def apos : Char := Char.ofNat 39

/-- Python `s.strip()`: remove whitespace from both ends. -/
def pyStrip (s : PyStr) : PyStr :=
  ((s.dropWhile Char.isWhitespace).reverse.dropWhile Char.isWhitespace).reverse

/-- Python `s.lower()` (on the character sets used here). -/
def pyLower (s : PyStr) : PyStr := s.map Char.toLower

/-- Python `needle in s`: substring containment test. -/
def containsSub (needle : PyStr) : PyStr → Bool
  | [] => needle.isEmpty
  | c :: rest => needle.isPrefixOf (c :: rest) || containsSub needle rest

/-- Left-to-right scan implementing Python `s.replace(old, new)` for
nonempty `old`.  The `fuel` argument only bounds the recursion; it is
always called with `fuel = s.length`, which is enough since every step
consumes at least one character of `s`, so the `fuel = 0` fallback (which
returns its argument unchanged, as the empty tail would) is never the
deciding case. -/
def pyReplaceAux (old new : PyStr) : Nat → PyStr → PyStr
  | _, [] => []
  | 0, s => s
  | fuel + 1, c :: rest =>
    if old.isPrefixOf (c :: rest) then
      new ++ pyReplaceAux old new fuel ((c :: rest).drop old.length)
    else
      c :: pyReplaceAux old new fuel rest

/-- Python `s.replace(old, new)`: replace every occurrence of `old`,
scanning left to right.  For empty `old`, Python inserts `new` at every
gap; the program only ever calls `replace` with nonempty `old`. -/
def pyReplace (s old new : PyStr) : PyStr :=
  if old.isEmpty then new ++ (s.map (fun c => c :: new)).flatten
  else pyReplaceAux old new s.length s

/-- Python `s.split(newline)`: `[""]` on the empty string, empty pieces
kept. -/
def splitLines : PyStr → List PyStr
  | [] => [[]]
  | c :: rest =>
    if c = '\n' then [] :: splitLines rest
    else
      match splitLines rest with
      | [] => [[c]]
      | l :: ls => (c :: l) :: ls

-- The seven recognized line markers of the textual contract
-- (bot.py lines 99-112).
def qMark : PyStr := pys "Question:"
def aMark : PyStr := pys "A)"
def bMark : PyStr := pys "B)"
def cMark : PyStr := pys "C)"
def dMark : PyStr := pys "D)"
def caMark : PyStr := pys "Correct Answer:"
def eMark : PyStr := pys "Explanation:"

/-- A raw line is recognized by marker `p` when, after Python stripping,
it starts with `p` — exactly the test `line.strip().startswith(p)` the
parser performs. -/
def lineMatches (p l : PyStr) : Bool := p.isPrefixOf (pyStrip l)

/-- What the parser stores for a recognized line:
`line.replace(marker, "").strip()` applied to the stripped line
(bot.py lines 100-112).  Note `replace` removes every occurrence of the
marker, not only the leading one. -/
def extractField (p l : PyStr) : PyStr := pyStrip (pyReplace (pyStrip l) p [])

/-- Modelled from the spec wording, for comparison with `extractField`:
the prefix-stripped, whitespace-trimmed remainder of a recognized line
(only the leading marker removed). -/
def specRemainder (p l : PyStr) : PyStr := pyStrip ((pyStrip l).drop p.length)

/-- The structured question returned by `parse_question`
(bot.py lines 114-119).  `options` is the insertion-ordered dict. -/
structure ParsedQuestion where
  question : PyStr
  options : List (PyStr × PyStr)
  correct_answer : PyStr
  explanation : PyStr
deriving DecidableEq

/-- Python dict assignment `d[k] = v`: update the first binding of `k`
in place, or append a new binding. -/
def dictSet : List (PyStr × PyStr) → PyStr → PyStr → List (PyStr × PyStr)
  | [], k, v => [(k, v)]
  | p :: rest, k, v => if p.1 == k then (k, v) :: rest else p :: dictSet rest k v

/-- Python dict lookup `d[k]` / `d.get(k)`, `none` when the key is absent
(a `KeyError` for the subscripting form). -/
def dictGet? : List (PyStr × PyStr) → PyStr → Option PyStr
  | [], _ => none
  | p :: rest, k => if p.1 == k then some p.2 else dictGet? rest k

/-- One iteration of the parser loop of `parse_question`
(bot.py lines 97-112): strip the line, dispatch on the recognized
markers in program order, ignore unrecognized lines. -/
def parse_line (st : ParsedQuestion) (rawLine : PyStr) : ParsedQuestion :=
  let line := pyStrip rawLine
  if qMark.isPrefixOf line then
    { st with question := pyStrip (pyReplace line qMark []) }
  else if aMark.isPrefixOf line then
    { st with options := dictSet st.options (pys "A") (pyStrip (pyReplace line aMark [])) }
  else if bMark.isPrefixOf line then
    { st with options := dictSet st.options (pys "B") (pyStrip (pyReplace line bMark [])) }
  else if cMark.isPrefixOf line then
    { st with options := dictSet st.options (pys "C") (pyStrip (pyReplace line cMark [])) }
  else if dMark.isPrefixOf line then
    { st with options := dictSet st.options (pys "D") (pyStrip (pyReplace line dMark [])) }
  else if caMark.isPrefixOf line then
    { st with correct_answer := pyStrip (pyReplace line caMark []) }
  else if eMark.isPrefixOf line then
    { st with explanation := pyStrip (pyReplace line eMark []) }
  else st

/-- The parser body: fold the line dispatch over the split lines with all
fields initially empty (bot.py lines 91-112). -/
def parse_question_lines (lines : List PyStr) : ParsedQuestion :=
  lines.foldl parse_line ⟨[], [], [], []⟩

/-- `parse_question` (bot.py lines 88-121).  The Python function wraps its
body in `try/except` returning `None` on an exception; every operation the
body performs (`split`, `strip`, `startswith`, `replace`, dict assignment)
is total and raises nothing, so the body is embedded as the total
computation and the `None` branch is the `none` the callers test for. -/
def parse_question (s : PyStr) : Option ParsedQuestion :=
  some (parse_question_lines (splitLines s))

/-- The completeness test `all([parsed["question"], parsed["options"],
parsed["correct_answer"]])` (bot.py lines 204, 364): Python truthiness of
a string or dict is non-emptiness. -/
def is_complete (p : ParsedQuestion) : Bool :=
  !p.question.isEmpty && !p.options.isEmpty && !p.correct_answer.isEmpty

/-- `generate_question` (bot.py lines 55-86).  The external completion
call is modelled by its outcome: `.ok content` when it returns text,
`.error e` when it raises an exception rendered as the string `e`.  On
success the content is stripped; on failure the textual error string is
returned in place of generated content. -/
def generate_question (llm : Except PyStr PyStr) : PyStr :=
  match llm with
  | .ok content => pyStrip content
  | .error e => pys "Error generating question: " ++ e

/-- `generate_detailed_explanation` (bot.py lines 123-147): returns the
stripped completion, falling back to the prefixed short explanation when
the call raises. -/
def generate_detailed_explanation (_topic _question _correct_option explanation : PyStr)
    (llm : Except PyStr PyStr) : PyStr :=
  match llm with
  | .ok content => pyStrip content
  | .error _ => pys "Basic explanation: " ++ explanation

/-- Per-user session state: the keys of `context.user_data` the program
uses (bot.py lines 164, 174, 186, 211-212, 237-238, 282).  `none` models
an absent key. -/
structure UserData where
  current_quiz : Option ParsedQuestion
  topic : Option PyStr
  awaiting_topic : Bool
deriving DecidableEq

/-- Outcome of the `/quiz` handler: the final reply text and the session
state afterwards. -/
structure QuizResult where
  reply : PyStr
  ud : UserData
deriving DecidableEq

/-- The rejection reply of the `/quiz` handler (bot.py lines 205-207). -/
def try_again_message : PyStr :=
  pys "❌ Error generating question. Please try again with /quiz"

/-- The question rendering of the `/quiz` handler (bot.py lines 215-219):
header, stem, then one line per option in dict insertion order. -/
def quiz_message (topic : PyStr) (parsed : ParsedQuestion) : PyStr :=
  pys "❓ Question about " ++ topic ++ pys ":\n\n" ++ parsed.question ++ pys "\n\n" ++
    (parsed.options.map (fun p => p.1 ++ pys ") " ++ p.2 ++ pys "\n")).flatten

/-- The `/quiz` handler after the generation step (bot.py lines 202-231):
parse, validate completeness, either reject leaving the session untouched
or store the question plus topic and render it. -/
def quiz_core (ud : UserData) (topics : List (PyStr × PyStr)) (user_id : PyStr)
    (question_text : PyStr) : QuizResult :=
  let topic := (dictGet? topics user_id).getD (pys "C++")
  match parse_question question_text with
  | none => ⟨try_again_message, ud⟩
  | some parsed =>
    if is_complete parsed then
      ⟨quiz_message topic parsed, { ud with current_quiz := some parsed, topic := some topic }⟩
    else ⟨try_again_message, ud⟩

/-- The `/quiz` handler (bot.py lines 194-231), with the external
completion call modelled by its outcome `llm`. -/
def quiz (ud : UserData) (topics : List (PyStr × PyStr)) (user_id : PyStr)
    (llm : Except PyStr PyStr) : QuizResult :=
  quiz_core ud topics user_id (generate_question llm)

/-- Reply when a button is pressed with no active quiz (bot.py line 241). -/
def no_active_message : PyStr :=
  pys "❌ No active quiz found. Use /quiz to start a new one."

/-- The reply built for a correct answer (bot.py lines 267-270). -/
def correct_message (selected sopt expl : PyStr) : PyStr :=
  pys "🎉 Correct! \n\n✅ " ++ selected ++ pys ") " ++ sopt ++ pys "\n\n💭 " ++ expl ++
    pys "\n\nGreat job! Use /quiz for another question! 🎯"

/-- The reply built for a wrong answer (bot.py lines 272-276). -/
def incorrect_message (selected sopt correct copt expl : PyStr) : PyStr :=
  pys "❌ Incorrect \n\nYour answer: " ++ selected ++ pys ") " ++ sopt ++
    pys "\nCorrect answer: " ++ correct ++ pys ") " ++ copt ++ pys "\n\n💭 " ++ expl ++
    pys "\n\nDon" ++ [apos] ++ pys "t worry, keep practicing! Use /quiz for another question! 💪"

/-- The reply built for an explain request (bot.py lines 253-256). -/
def explain_message (correct copt detailed : PyStr) : PyStr :=
  pys "💡 Detailed Explanation:\n\nCorrect Answer: " ++ correct ++ pys ") " ++ copt ++
    pys "\n\n" ++ detailed ++ pys "\n\nUse /quiz for another question! 🎯"

/-- Outcome of the button-press handler: either a reply was sent and the
session is in the given state, or an option lookup raised an uncaught
`KeyError` on the named key (in which case nothing further runs, so the
session is left as it was). -/
inductive HAResult where
  | ok (reply : PyStr) (ud : UserData)
  | keyError (missingKey : PyStr)
deriving DecidableEq

/-- The session state after an `.ok` outcome. -/
def HAResult.endState : HAResult → Option UserData
  | .ok _ ud => some ud
  | .keyError _ => none

/-- The button-press handler `handle_answer` (bot.py lines 233-282).
`data` is the callback payload; `det` is the outcome of the external
detailed-explanation call.  After either branch only the `current_quiz`
key is popped (line 282); the `topic` and `awaiting_topic` keys are left
in place. -/
def handle_answer (ud : UserData) (data : PyStr) (det : Except PyStr PyStr) : HAResult :=
  match ud.current_quiz with
  | none => .ok no_active_message ud
  | some cq =>
    if data = pys "explain" then
      match dictGet? cq.options cq.correct_answer with
      | none => .keyError cq.correct_answer
      | some copt =>
        .ok (explain_message cq.correct_answer copt
            (generate_detailed_explanation (ud.topic.getD (pys "Unknown")) cq.question
              (cq.correct_answer ++ pys ") " ++ copt) cq.explanation det))
          { ud with current_quiz := none }
    else
      if pyReplace data (pys "answer_") [] = cq.correct_answer then
        match dictGet? cq.options (pyReplace data (pys "answer_") []) with
        | none => .keyError (pyReplace data (pys "answer_") [])
        | some sopt =>
          .ok (correct_message (pyReplace data (pys "answer_") []) sopt cq.explanation)
            { ud with current_quiz := none }
      else
        match dictGet? cq.options (pyReplace data (pys "answer_") []) with
        | none => .keyError (pyReplace data (pys "answer_") [])
        | some sopt =>
          match dictGet? cq.options cq.correct_answer with
          | none => .keyError cq.correct_answer
          | some copt =>
            .ok (incorrect_message (pyReplace data (pys "answer_") []) sopt
                cq.correct_answer copt cq.explanation) { ud with current_quiz := none }

/-- Outcome of the topic free-text handler: the topic store, the session
state and the reply (if any) afterwards. -/
structure TopicMsgResult where
  topics : List (PyStr × PyStr)
  ud : UserData
  reply : Option PyStr
deriving DecidableEq

/-- The re-prompt for an out-of-range topic (bot.py line 180). -/
def reprompt_message : PyStr :=
  pys "❌ Topic should be between 2-100 characters. Try again:"

/-- The confirmation after saving a topic (bot.py lines 188-192). -/
def topic_saved_message (topic : PyStr) : PyStr :=
  pys "✅ Topic saved successfully!\n📚 Your topic: " ++ topic ++
    pys "\n\nUse /quiz to start practicing!"

/-- `handle_topic_message` (bot.py lines 172-192): only acts while the
`awaiting_topic` flag is set; strips the message, validates the length
against [2,100], persists in range and clears the flag, otherwise
re-prompts changing nothing. -/
def handle_topic_message (ud : UserData) (topics : List (PyStr × PyStr))
    (user_id msgText : PyStr) : TopicMsgResult :=
  if ud.awaiting_topic then
    let topic := pyStrip msgText
    if topic.length < 2 ∨ topic.length > 100 then
      ⟨topics, ud, some reprompt_message⟩
    else
      ⟨dictSet topics user_id topic, { ud with awaiting_topic := false },
        some (topic_saved_message topic)⟩
  else ⟨topics, ud, none⟩

/-- `subscribe_daily` (bot.py lines 300-315): append the id only when it
is not yet in the list. -/
def subscribe_daily (subscribers : List Int) (user_id : Int) : List Int :=
  if user_id ∉ subscribers then subscribers ++ [user_id] else subscribers

/-- `unsubscribe_daily` (bot.py lines 317-327): `list.remove` drops the
first occurrence; nothing happens when the id is absent. -/
def unsubscribe_daily (subscribers : List Int) (user_id : Int) : List Int :=
  if user_id ∈ subscribers then subscribers.erase user_id else subscribers

/-- Result of one daily broadcast run: the in-memory subscriber list, the
persisted subscriber file, and the users to whom a message was delivered,
in order. -/
structure DailyResult where
  subscribers : List Int
  store : List Int
  sent : List Int
deriving DecidableEq

/-- The body of the `for user_id in subscribers` loop of `send_daily_quiz`
(bot.py lines 356-403), with Python list-iterator semantics made explicit:
the iterator advances an index into the current list, so an in-place
`remove` shifts the remaining elements under it.  `gen u topic` is the
outcome of the external generation call for user `u`; `deliver u` is
`none` when `send_message` succeeds and `some e` when it raises the
exception rendered as `e`.  On a delivery failure whose lowered text
contains "bot was blocked", the user is removed from the list being
iterated and the list is saved.  `fuel` only bounds the recursion; the
initial list length is enough, since the index grows by one per step and
the list never grows. -/
def send_daily_loop (gen : Int → PyStr → Except PyStr PyStr) (deliver : Int → Option PyStr)
    (topics : List (PyStr × PyStr)) :
    Nat → Nat → List Int → List Int → List Int → DailyResult
  | 0, _, subs, store, sent => ⟨subs, store, sent⟩
  | fuel + 1, idx, subs, store, sent =>
    match subs.get? idx with
    | none => ⟨subs, store, sent⟩
    | some u =>
      let topic := (dictGet? topics (pys (toString u))).getD (pys "C++")
      let question_text := generate_question (gen u topic)
      match parse_question question_text with
      | none => send_daily_loop gen deliver topics fuel (idx + 1) subs store sent
      | some parsed =>
        if is_complete parsed then
          match deliver u with
          | none => send_daily_loop gen deliver topics fuel (idx + 1) subs store (sent ++ [u])
          | some err =>
            if containsSub (pys "bot was blocked") (pyLower err) then
              send_daily_loop gen deliver topics fuel (idx + 1)
                (subs.erase u) (subs.erase u) sent
            else send_daily_loop gen deliver topics fuel (idx + 1) subs store sent
        else send_daily_loop gen deliver topics fuel (idx + 1) subs store sent

/-- `send_daily_quiz` (bot.py lines 344-406): load the subscriber list,
return at once when it is empty, otherwise run the delivery loop over it.
The loaded list is also the persisted store until a removal saves. -/
def send_daily_quiz (gen : Int → PyStr → Except PyStr PyStr) (deliver : Int → Option PyStr)
    (topics : List (PyStr × PyStr)) (subscribers : List Int) : DailyResult :=
  if subscribers.isEmpty then ⟨subscribers, subscribers, []⟩
  else send_daily_loop gen deliver topics subscribers.length 0 subscribers subscribers []

-- ===== Concrete inputs used by witnesses and counterexamples =====

/-- A well-formed contract text, as one string. -/
def goodContract : PyStr :=
  pys "Question: q?\nA) a\nB) b\nC) c\nD) d\nCorrect Answer: B\nExplanation: e"

/-- A well-formed line list with the recognized lines out of order and a
prose line in between. -/
def w1lines : List PyStr :=
  [pys "some prose", pys "Explanation: e", pys "D) d", pys "C) c", pys "B) b",
   pys "A) a", pys "Question: q?", pys "Correct Answer: B"]

/-- A permutation of `w1lines`. -/
def w1lines2 : List PyStr :=
  [pys "Question: q?", pys "A) a", pys "B) b", pys "C) c", pys "D) d",
   pys "Correct Answer: B", pys "Explanation: e", pys "some prose"]

/-- A well-formed line list whose stem line contains the marker text
"Question:" a second time inside the stem itself. -/
def cex1lines : List PyStr :=
  [pys "Question: Question: twice", pys "A) a", pys "B) b", pys "C) c",
   pys "D) d", pys "Correct Answer: A", pys "Explanation: e"]

/-- An exception text that happens to contain a full contract: appended to
the fixed error header it still parses as a complete question. -/
def c5err : PyStr :=
  pys "boom\nQuestion: q\nA) a\nB) b\nC) c\nD) d\nCorrect Answer: A\nExplanation: x"

/-- Generation outcome for the daily-broadcast run: every user gets the
well-formed contract. -/
def c2gen : Int → PyStr → Except PyStr PyStr := fun _ _ => .ok goodContract

/-- Delivery outcome for the daily-broadcast run: user 2 raises a blocked
failure, users 1 and 3 would succeed. -/
def c2deliver : Int → Option PyStr := fun u =>
  if u = 2 then some (pys "Forbidden: bot was blocked by the user") else none

/-- A stored structured question with all four options and correct label
B. -/
def c6q : ParsedQuestion :=
  ⟨pys "q?", [(pys "A", pys "a"), (pys "B", pys "b"), (pys "C", pys "c"), (pys "D", pys "d")],
    pys "B", pys "e"⟩

/-- Session state holding `c6q` for a user whose stored topic is Rust. -/
def c6ud : UserData := ⟨some c6q, some (pys "Rust"), false⟩

/-- Generated text whose "Correct Answer:" line names E, a label that is
not among the four option keys. -/
def c7text : PyStr :=
  pys "Question: q\nA) a\nB) b\nC) c\nD) d\nCorrect Answer: E\nExplanation: x"

/-- The parse of `c7text`. -/
def c7q : ParsedQuestion := parse_question_lines (splitLines c7text)

/-- Generated text with no "Correct Answer:" line. -/
def c4text : PyStr := pys "Question: q\nA) a\nB) b\nC) c\nD) d\nExplanation: e"

-- ===== Lemmas about the embedded operations =====

/-- Python dict lookup after dict assignment: the assigned key reads the
new value, every other key is unaffected. -/
theorem dictGet?_dictSet (d : List (PyStr × PyStr)) (k v k' : PyStr) :
    dictGet? (dictSet d k v) k' = if k' = k then some v else dictGet? d k' := by
  induction d with
  | nil =>
    by_cases h : k' = k
    · subst h; simp [dictSet, dictGet?]
    · have h' : ¬ k = k' := fun hc => h hc.symm
      simp [dictSet, dictGet?, beq_iff_eq, h, h']
  | cons p rest ih =>
    by_cases h1 : p.1 = k
    · by_cases h2 : k' = k
      · subst h2; simp [dictSet, dictGet?, beq_iff_eq, h1]
      · have h' : ¬ k = k' := fun hc => h2 hc.symm
        have h'' : ¬ p.1 = k' := by rw [h1]; exact h'
        simp [dictSet, dictGet?, beq_iff_eq, h1, h2, h', h'']
    · by_cases h2 : p.1 = k'
      · have h3 : ¬ k' = k := by rw [← h2]; intro hc; exact h1 hc
        simp [dictSet, dictGet?, beq_iff_eq, h1, h2, h3]
      · by_cases h3 : k' = k
        · subst h3; simp [dictSet, dictGet?, beq_iff_eq, h1, h2, ih]
        · simp [dictSet, dictGet?, beq_iff_eq, h1, h2, h3, ih]

/-- No string can start with two markers neither of which is a prefix of
the other. -/
theorem lineMatches_excl {p q : PyStr} (hpq : ¬ p <+: q) (hqp : ¬ q <+: p)
    {l : PyStr} (h : lineMatches p l = true) : lineMatches q l = false := by
  unfold lineMatches at *
  rw [List.isPrefixOf_iff_prefix] at h
  by_contra hq
  rw [Bool.not_eq_false, List.isPrefixOf_iff_prefix] at hq
  rcases List.prefix_or_prefix_of_prefix h hq with h1 | h1
  · exact hpq h1
  · exact hqp h1

/-- Effect of one parser step on the `question` field. -/
theorem parse_line_question (st : ParsedQuestion) (l : PyStr) :
    (parse_line st l).question =
      if lineMatches qMark l then extractField qMark l else st.question := by
  by_cases h : lineMatches qMark l = true
  · unfold parse_line lineMatches extractField at *
    simp [h]
  · unfold parse_line lineMatches extractField at *
    simp [h]
    split_ifs <;> rfl

/-- Effect of one parser step on the `correct_answer` field. -/
theorem parse_line_correct (st : ParsedQuestion) (l : PyStr) :
    (parse_line st l).correct_answer =
      if lineMatches caMark l then extractField caMark l else st.correct_answer := by
  by_cases h : lineMatches caMark l = true
  · have h1 := lineMatches_excl (p := caMark) (q := qMark) (by decide) (by decide) h
    have h2 := lineMatches_excl (p := caMark) (q := aMark) (by decide) (by decide) h
    have h3 := lineMatches_excl (p := caMark) (q := bMark) (by decide) (by decide) h
    have h4 := lineMatches_excl (p := caMark) (q := cMark) (by decide) (by decide) h
    have h5 := lineMatches_excl (p := caMark) (q := dMark) (by decide) (by decide) h
    unfold parse_line lineMatches extractField at *
    simp [h, h1, h2, h3, h4, h5]
  · unfold parse_line lineMatches extractField at *
    simp [h]
    split_ifs <;> rfl

/-- Effect of one parser step on the `explanation` field. -/
theorem parse_line_explanation (st : ParsedQuestion) (l : PyStr) :
    (parse_line st l).explanation =
      if lineMatches eMark l then extractField eMark l else st.explanation := by
  by_cases h : lineMatches eMark l = true
  · have h1 := lineMatches_excl (p := eMark) (q := qMark) (by decide) (by decide) h
    have h2 := lineMatches_excl (p := eMark) (q := aMark) (by decide) (by decide) h
    have h3 := lineMatches_excl (p := eMark) (q := bMark) (by decide) (by decide) h
    have h4 := lineMatches_excl (p := eMark) (q := cMark) (by decide) (by decide) h
    have h5 := lineMatches_excl (p := eMark) (q := dMark) (by decide) (by decide) h
    have h6 := lineMatches_excl (p := eMark) (q := caMark) (by decide) (by decide) h
    unfold parse_line lineMatches extractField at *
    simp [h, h1, h2, h3, h4, h5, h6]
  · unfold parse_line lineMatches extractField at *
    simp [h]
    split_ifs <;> rfl

/-- Effect of one parser step on the option stored under key A. -/
theorem parse_line_optA (st : ParsedQuestion) (l : PyStr) :
    dictGet? (parse_line st l).options (pys "A") =
      if lineMatches aMark l then some (extractField aMark l)
      else dictGet? st.options (pys "A") := by
  by_cases h : lineMatches aMark l = true
  · have h1 := lineMatches_excl (p := aMark) (q := qMark) (by decide) (by decide) h
    unfold parse_line lineMatches extractField at *
    simp [h, h1, dictGet?_dictSet]
  · unfold parse_line lineMatches extractField at *
    simp [h]
    split_ifs <;> first | rfl | (rw [dictGet?_dictSet, if_neg (by decide)])

/-- Effect of one parser step on the option stored under key B. -/
theorem parse_line_optB (st : ParsedQuestion) (l : PyStr) :
    dictGet? (parse_line st l).options (pys "B") =
      if lineMatches bMark l then some (extractField bMark l)
      else dictGet? st.options (pys "B") := by
  by_cases h : lineMatches bMark l = true
  · have h1 := lineMatches_excl (p := bMark) (q := qMark) (by decide) (by decide) h
    have h2 := lineMatches_excl (p := bMark) (q := aMark) (by decide) (by decide) h
    unfold parse_line lineMatches extractField at *
    simp [h, h1, h2, dictGet?_dictSet]
  · unfold parse_line lineMatches extractField at *
    simp [h]
    split_ifs <;> first | rfl | (rw [dictGet?_dictSet, if_neg (by decide)])

/-- Effect of one parser step on the option stored under key C. -/
theorem parse_line_optC (st : ParsedQuestion) (l : PyStr) :
    dictGet? (parse_line st l).options (pys "C") =
      if lineMatches cMark l then some (extractField cMark l)
      else dictGet? st.options (pys "C") := by
  by_cases h : lineMatches cMark l = true
  · have h1 := lineMatches_excl (p := cMark) (q := qMark) (by decide) (by decide) h
    have h2 := lineMatches_excl (p := cMark) (q := aMark) (by decide) (by decide) h
    have h3 := lineMatches_excl (p := cMark) (q := bMark) (by decide) (by decide) h
    unfold parse_line lineMatches extractField at *
    simp [h, h1, h2, h3, dictGet?_dictSet]
  · unfold parse_line lineMatches extractField at *
    simp [h]
    split_ifs <;> first | rfl | (rw [dictGet?_dictSet, if_neg (by decide)])

/-- Effect of one parser step on the option stored under key D. -/
theorem parse_line_optD (st : ParsedQuestion) (l : PyStr) :
    dictGet? (parse_line st l).options (pys "D") =
      if lineMatches dMark l then some (extractField dMark l)
      else dictGet? st.options (pys "D") := by
  by_cases h : lineMatches dMark l = true
  · have h1 := lineMatches_excl (p := dMark) (q := qMark) (by decide) (by decide) h
    have h2 := lineMatches_excl (p := dMark) (q := aMark) (by decide) (by decide) h
    have h3 := lineMatches_excl (p := dMark) (q := bMark) (by decide) (by decide) h
    have h4 := lineMatches_excl (p := dMark) (q := cMark) (by decide) (by decide) h
    unfold parse_line lineMatches extractField at *
    simp [h, h1, h2, h3, h4, dictGet?_dictSet]
  · unfold parse_line lineMatches extractField at *
    simp [h]
    split_ifs <;> first | rfl | (rw [dictGet?_dictSet, if_neg (by decide)])

/-- A field of the parser fold is determined by the lines its marker
recognizes: the fold over all lines equals the fold over just the
recognized lines. -/
theorem foldl_field {α : Type} (F : ParsedQuestion → α) (m : PyStr → Bool) (e : PyStr → α)
    (hstep : ∀ st l, F (parse_line st l) = if m l then e l else F st) :
    ∀ (lines : List PyStr) (st : ParsedQuestion),
      F (lines.foldl parse_line st) = (lines.filter m).foldl (fun _ l => e l) (F st) := by
  intro lines
  induction lines with
  | nil => intro st; rfl
  | cons l rest ih =>
    intro st
    by_cases h : m l = true <;>
      simp [List.filter_cons, h, ih, hstep]

/-- When `old` occurs nowhere in `t`, the replacement scan copies `t`
unchanged. -/
theorem pyReplaceAux_no_occur (old new : PyStr) :
    ∀ (fuel : Nat) (t : PyStr), containsSub old t = false →
      pyReplaceAux old new fuel t = t := by
  intro fuel
  induction fuel with
  | zero => intro t _; cases t <;> rfl
  | succ n ih =>
    intro t ht
    cases t with
    | nil => rfl
    | cons c rest =>
      rw [containsSub] at ht
      rcases Bool.or_eq_false_iff.mp ht with ⟨h1, h2⟩
      rw [pyReplaceAux, if_neg (by simp [h1]), ih rest h2]

/-- When a nonempty `old` occurs in `s` only as its leading prefix,
`replace(old, "")` is exactly dropping the prefix. -/
theorem pyReplace_eq_drop (s old : PyStr) (hne : old ≠ [])
    (hpre : old.isPrefixOf s = true)
    (hno : containsSub old (s.drop old.length) = false) :
    pyReplace s old [] = s.drop old.length := by
  unfold pyReplace
  have hemp : old.isEmpty = false := by cases old with
    | nil => exact absurd rfl hne
    | cons o os => rfl
  rw [hemp]
  simp only [Bool.false_eq_true, if_false]
  cases s with
  | nil =>
    cases old with
    | nil => exact absurd rfl hne
    | cons o os => simp [List.isPrefixOf] at hpre
  | cons c rest =>
    rw [List.length_cons, pyReplaceAux, if_pos hpre, List.nil_append]
    exact pyReplaceAux_no_occur old [] rest.length ((c :: rest).drop old.length) hno

/-- Under the single-occurrence condition, what the parser stores for a
recognized line is the prefix-stripped, trimmed remainder the spec
describes. -/
theorem extractField_eq_specRemainder (p l : PyStr) (hne : p ≠ [])
    (h : lineMatches p l = true)
    (hno : containsSub p ((pyStrip l).drop p.length) = false) :
    extractField p l = specRemainder p l := by
  unfold extractField specRemainder
  rw [pyReplace_eq_drop (pyStrip l) p hne h hno]

/-- The parser on a line list containing exactly one recognized line per
marker: every field holds what was extracted from its line. -/
theorem parse_fields (lines : List PyStr) (lq la lb lc ld lca le : PyStr)
    (hq : lines.filter (lineMatches qMark) = [lq])
    (ha : lines.filter (lineMatches aMark) = [la])
    (hb : lines.filter (lineMatches bMark) = [lb])
    (hc : lines.filter (lineMatches cMark) = [lc])
    (hd : lines.filter (lineMatches dMark) = [ld])
    (hca : lines.filter (lineMatches caMark) = [lca])
    (he : lines.filter (lineMatches eMark) = [le]) :
    (parse_question_lines lines).question = extractField qMark lq ∧
    dictGet? (parse_question_lines lines).options (pys "A") = some (extractField aMark la) ∧
    dictGet? (parse_question_lines lines).options (pys "B") = some (extractField bMark lb) ∧
    dictGet? (parse_question_lines lines).options (pys "C") = some (extractField cMark lc) ∧
    dictGet? (parse_question_lines lines).options (pys "D") = some (extractField dMark ld) ∧
    (parse_question_lines lines).correct_answer = extractField caMark lca ∧
    (parse_question_lines lines).explanation = extractField eMark le := by
  refine ⟨?_, ?_, ?_, ?_, ?_, ?_, ?_⟩
  · have h := foldl_field (fun st => st.question) (lineMatches qMark)
      (extractField qMark) parse_line_question lines ⟨[], [], [], []⟩
    rw [hq] at h
    simpa using h
  · have h := foldl_field (fun st => dictGet? st.options (pys "A")) (lineMatches aMark)
      (fun l => some (extractField aMark l)) parse_line_optA lines ⟨[], [], [], []⟩
    rw [ha] at h
    simpa using h
  · have h := foldl_field (fun st => dictGet? st.options (pys "B")) (lineMatches bMark)
      (fun l => some (extractField bMark l)) parse_line_optB lines ⟨[], [], [], []⟩
    rw [hb] at h
    simpa using h
  · have h := foldl_field (fun st => dictGet? st.options (pys "C")) (lineMatches cMark)
      (fun l => some (extractField cMark l)) parse_line_optC lines ⟨[], [], [], []⟩
    rw [hc] at h
    simpa using h
  · have h := foldl_field (fun st => dictGet? st.options (pys "D")) (lineMatches dMark)
      (fun l => some (extractField dMark l)) parse_line_optD lines ⟨[], [], [], []⟩
    rw [hd] at h
    simpa using h
  · have h := foldl_field (fun st => st.correct_answer) (lineMatches caMark)
      (extractField caMark) parse_line_correct lines ⟨[], [], [], []⟩
    rw [hca] at h
    simpa using h
  · have h := foldl_field (fun st => st.explanation) (lineMatches eMark)
      (extractField eMark) parse_line_explanation lines ⟨[], [], [], []⟩
    rw [he] at h
    simpa using h

/-- A text none of whose lines is recognized by the "Correct Answer:"
marker parses with an empty `correct_answer` field. -/
theorem correct_answer_empty_of_no_ca (lines : List PyStr)
    (h : ∀ l ∈ lines, lineMatches caMark l = false) :
    (parse_question_lines lines).correct_answer = [] := by
  have hf : lines.filter (lineMatches caMark) = [] :=
    List.filter_eq_nil_iff.mpr (fun a ha => by simp [h a ha])
  have hh := foldl_field (fun st => st.correct_answer) (lineMatches caMark)
    (extractField caMark) parse_line_correct lines ⟨[], [], [], []⟩
  rw [hf] at hh
  simpa using hh

/-- The `/quiz` pipeline rejects generated text in which no line is
recognized by the "Correct Answer:" marker: the completeness check fails
and the session is left untouched. -/
theorem quiz_core_rejects (ud : UserData) (topics : List (PyStr × PyStr)) (uid : PyStr)
    (s : PyStr) (h : ∀ l ∈ splitLines s, lineMatches caMark l = false) :
    quiz_core ud topics uid s = ⟨try_again_message, ud⟩ := by
  have hca := correct_answer_empty_of_no_ca (splitLines s) h
  unfold quiz_core parse_question
  simp [is_complete, hca]

/-- Whenever the button handler runs with a stored question and ends with
a sent reply, the resulting session is the starting one with only the
`current_quiz` key popped. -/
theorem handle_answer_ok_state (ud : UserData) (cq : ParsedQuestion) (data : PyStr)
    (det : Except PyStr PyStr) (hcq : ud.current_quiz = some cq) (r : PyStr) (u2 : UserData)
    (hok : handle_answer ud data det = .ok r u2) : u2 = { ud with current_quiz := none } := by
  unfold handle_answer at hok
  rw [hcq] at hok
  dsimp only at hok
  split at hok
  · split at hok
    · exact absurd hok (by simp)
    · simp only [HAResult.ok.injEq] at hok
      exact hok.2.symm
  · split at hok
    · split at hok
      · exact absurd hok (by simp)
      · simp only [HAResult.ok.injEq] at hok
        exact hok.2.symm
    · split at hok
      · exact absurd hok (by simp)
      · split at hok
        · exact absurd hok (by simp)
        · simp only [HAResult.ok.injEq] at hok
          exact hok.2.symm

-- ===== The claims =====

/-- Claim C10: `parse_question` is total on strings: for every input it
returns a structured record (the one the line fold computes), so the
exception branch returning null is unreachable and callers never observe
the null result. -/
theorem claim_C10 (s : PyStr) :
    (parse_question s).isSome = true ∧
    parse_question s = some (parse_question_lines (splitLines s)) :=
  ⟨rfl, rfl⟩

/-- Claim C8: subscribing an already-present identity leaves the
subscriber store unchanged, unsubscribing an absent identity leaves it
unchanged, and subscribe followed by subscribe equals a single
subscribe. -/
theorem claim_C8 (subscribers : List Int) (uid : Int) :
    (uid ∈ subscribers → subscribe_daily subscribers uid = subscribers) ∧
    (uid ∉ subscribers → unsubscribe_daily subscribers uid = subscribers) ∧
    subscribe_daily (subscribe_daily subscribers uid) uid = subscribe_daily subscribers uid := by
  refine ⟨fun h => by simp [subscribe_daily, h], fun h => by simp [unsubscribe_daily, h], ?_⟩
  by_cases h : uid ∈ subscribers
  · simp [subscribe_daily, h]
  · simp [subscribe_daily, h]

/-- Witness for C8 at concrete stores. -/
theorem claim_C8_witness :
    subscribe_daily [3] 3 = [3] ∧ unsubscribe_daily [3] 5 = [3] ∧
    subscribe_daily (subscribe_daily [] 7) 7 = subscribe_daily [] 7 :=
  ⟨(claim_C8 [3] 3).1 (by decide), (claim_C8 [3] 5).2.1 (by decide), (claim_C8 [] 7).2.2⟩

/-- Claim C9: while awaiting topic entry, a message whose trimmed length
is outside [2,100] leaves the topic store and the session (including the
awaiting flag) unchanged apart from a re-prompt, while an in-range
message is persisted under the user and ends the awaiting state. -/
theorem claim_C9 (ud : UserData) (topics : List (PyStr × PyStr)) (uid msg : PyStr)
    (hawait : ud.awaiting_topic = true) :
    (((pyStrip msg).length < 2 ∨ (pyStrip msg).length > 100) →
      handle_topic_message ud topics uid msg = ⟨topics, ud, some reprompt_message⟩) ∧
    ((2 ≤ (pyStrip msg).length ∧ (pyStrip msg).length ≤ 100) →
      handle_topic_message ud topics uid msg =
        ⟨dictSet topics uid (pyStrip msg), { ud with awaiting_topic := false },
          some (topic_saved_message (pyStrip msg))⟩ ∧
      dictGet? (handle_topic_message ud topics uid msg).topics uid = some (pyStrip msg)) := by
  constructor
  · intro h
    simp [handle_topic_message, hawait, h]
  · rintro ⟨h1, h2⟩
    have hn : ¬ ((pyStrip msg).length < 2 ∨ (pyStrip msg).length > 100) := by omega
    simp [handle_topic_message, hawait, hn, dictGet?_dictSet]

/-- Witness for C9: an in-range topic is saved; a one-character topic
only re-prompts. -/
theorem claim_C9_witness :
    handle_topic_message ⟨none, none, true⟩ [] (pys "7") (pys " Python ") =
      ⟨dictSet [] (pys "7") (pyStrip (pys " Python ")), ⟨none, none, false⟩,
        some (topic_saved_message (pyStrip (pys " Python ")))⟩ ∧
    handle_topic_message ⟨none, none, true⟩ [] (pys "7") (pys "x") =
      ⟨[], ⟨none, none, true⟩, some reprompt_message⟩ := by
  refine ⟨((claim_C9 ⟨none, none, true⟩ [] (pys "7") (pys " Python ") rfl).2 (by decide)).1, ?_⟩
  exact (claim_C9 ⟨none, none, true⟩ [] (pys "7") (pys "x") rfl).1 (by decide)

/-- Claim C4: input text in which no (stripped) line begins with
"Correct Answer:" parses to a record with empty `correct_answer`; that
record fails the completeness check, so the quiz pipeline rejects it for
display, replying with the try-again message and leaving the session
untouched. -/
theorem claim_C4 (s : PyStr) (ud : UserData) (topics : List (PyStr × PyStr)) (uid : PyStr)
    (h : ∀ l ∈ splitLines s, lineMatches caMark l = false) :
    parse_question s = some (parse_question_lines (splitLines s)) ∧
    (parse_question_lines (splitLines s)).correct_answer = [] ∧
    is_complete (parse_question_lines (splitLines s)) = false ∧
    quiz_core ud topics uid s = ⟨try_again_message, ud⟩ := by
  have hca := correct_answer_empty_of_no_ca (splitLines s) h
  refine ⟨rfl, hca, ?_, quiz_core_rejects ud topics uid s h⟩
  simp [is_complete, hca]

/-- Witness for C4 at a concrete text missing the "Correct Answer:"
line. -/
theorem claim_C4_witness :
    (parse_question_lines (splitLines c4text)).correct_answer = [] ∧
    is_complete (parse_question_lines (splitLines c4text)) = false ∧
    quiz_core ⟨none, none, false⟩ [] (pys "1") c4text =
      ⟨try_again_message, ⟨none, none, false⟩⟩ := by
  have h := claim_C4 c4text ⟨none, none, false⟩ [] (pys "1") (by decide)
  exact ⟨h.2.1, h.2.2.1, h.2.2.2⟩

/-- Claim C5, corrected.  When the external generation call raises,
`generate_question` returns the textual error string instead of raising.
The claim that this string always fails the parse is false (see the
counterexample); it holds provided no (stripped) line of the resulting
error text begins with "Correct Answer:" — in particular for every
single-line exception message.  Then the quiz handler replies with the
generic try-again message, stores no question, and raises nothing. -/
theorem claim_C5 (e : PyStr) (ud : UserData) (topics : List (PyStr × PyStr)) (uid : PyStr)
    (h : ∀ l ∈ splitLines (pys "Error generating question: " ++ e),
      lineMatches caMark l = false)
    (hidle : ud.current_quiz = none) :
    generate_question (.error e) = pys "Error generating question: " ++ e ∧
    quiz ud topics uid (.error e) = ⟨try_again_message, ud⟩ ∧
    (quiz ud topics uid (.error e)).ud.current_quiz = none := by
  have h2 : quiz_core ud topics uid (generate_question (Except.error e)) =
      ⟨try_again_message, ud⟩ :=
    quiz_core_rejects ud topics uid (generate_question (Except.error e)) h
  refine ⟨rfl, h2, ?_⟩
  unfold quiz
  rw [h2]
  exact hidle

/-- Witness for C5 at a realistic one-line exception message. -/
theorem claim_C5_witness :
    generate_question (.error (pys "network timeout")) =
      pys "Error generating question: network timeout" ∧
    quiz ⟨none, none, false⟩ [] (pys "1") (.error (pys "network timeout")) =
      ⟨try_again_message, ⟨none, none, false⟩⟩ := by
  have h := claim_C5 (pys "network timeout") ⟨none, none, false⟩ [] (pys "1") (by decide) rfl
  exact ⟨h.1, h.2.1⟩

/-- Counterexample for C5 as stated: an exception whose rendered text
contains a full contract yields an error string that parses as a
complete question, so the quiz handler shows and stores it instead of
rejecting it. -/
theorem claim_C5_counterexample :
    is_complete (parse_question_lines (splitLines (generate_question (.error c5err)))) = true ∧
    (quiz ⟨none, none, false⟩ [] (pys "1") (.error c5err)).ud.current_quiz =
      some (parse_question_lines (splitLines (generate_question (.error c5err)))) ∧
    ((quiz ⟨none, none, false⟩ [] (pys "1") (.error c5err)).reply == try_again_message)
      = false := by decide

/-- Claim C6, corrected.  After an answer-selection or explain-request
event handled with non-null session state completes with a reply, the
stored structured question is cleared and the user returns to IDLE
regardless of the detailed-explanation outcome, and a subsequent button
press reports no active quiz — but the stored topic is NOT cleared: only
the `current_quiz` key is popped (see the counterexample). -/
theorem claim_C6 (ud : UserData) (cq : ParsedQuestion) (data : PyStr)
    (det : Except PyStr PyStr) (reply : PyStr) (ud2 : UserData)
    (hcq : ud.current_quiz = some cq)
    (hok : handle_answer ud data det = .ok reply ud2) :
    ud2.current_quiz = none ∧ ud2.topic = ud.topic ∧ ud2.awaiting_topic = ud.awaiting_topic ∧
    ∀ data2 det2, handle_answer ud2 data2 det2 = .ok no_active_message ud2 := by
  have h2 := handle_answer_ok_state ud cq data det hcq reply ud2 hok
  subst h2
  exact ⟨rfl, rfl, rfl, fun data2 det2 => rfl⟩

/-- Witness for C6: a concrete answered quiz clears the question and a
further press reports no active quiz (with the topic retained). -/
theorem claim_C6_witness :
    (⟨none, some (pys "Rust"), false⟩ : UserData).topic = c6ud.topic ∧
    handle_answer ⟨none, some (pys "Rust"), false⟩ (pys "answer_A") (.ok (pys "y")) =
      .ok no_active_message ⟨none, some (pys "Rust"), false⟩ := by
  have h := claim_C6 c6ud c6q (pys "answer_B") (.ok (pys "x"))
      (correct_message (pys "B") (pys "b") (pys "e")) ⟨none, some (pys "Rust"), false⟩
      rfl (by decide)
  exact ⟨h.2.1, h.2.2.2 (pys "answer_A") (.ok (pys "y"))⟩

/-- Counterexample for C6 as stated: handling an answer with stored
topic Rust pops only the stored question; the topic entry of the session
state survives, so the session state is not cleared as a whole. -/
theorem claim_C6_counterexample :
    handle_answer c6ud (pys "answer_B") (.ok (pys "x")) =
      .ok (correct_message (pys "B") (pys "b") (pys "e"))
        ⟨none, some (pys "Rust"), false⟩ ∧
    (⟨none, some (pys "Rust"), false⟩ : UserData).topic.isSome = true := by decide

/-- Claim C7: the completeness check does not force `correct_answer` to
be an option key: `c7text` parses complete with correct label E absent
from the options, and the button handler then ends in an uncaught
`KeyError` on E — for the explain request and for a wrong-answer
selection alike, whatever the detailed-explanation outcome and session
topic. -/
theorem claim_C7 :
    is_complete c7q = true ∧
    dictGet? c7q.options c7q.correct_answer = none ∧
    (∀ (det : Except PyStr PyStr) (topic : Option PyStr) (flag : Bool),
      handle_answer ⟨some c7q, topic, flag⟩ (pys "explain") det = .keyError (pys "E")) ∧
    (∀ (det : Except PyStr PyStr) (topic : Option PyStr) (flag : Bool),
      handle_answer ⟨some c7q, topic, flag⟩ (pys "answer_A") det = .keyError (pys "E")) := by
  refine ⟨by decide, by decide, ?_, ?_⟩
  · intro det topic flag
    rfl
  · intro det topic flag
    rfl

/-- Claim C2, a bug in the code.  With subscribers [1, 2, 3], valid
generation for every user and a blocked failure only for user 2: user 2
is removed and the store ends as [1, 3] (as the claim says), but the
in-place removal from the list being iterated shifts user 3 under the
iterator, so user 3 is never attempted and only user 1 receives the
quiz — delivery to the remaining subscriber IS prevented. -/
theorem claim_C2 :
    send_daily_quiz c2gen c2deliver [] [1, 2, 3] = ⟨[1, 3], [1, 3], [1]⟩ ∧
    (send_daily_quiz c2gen c2deliver [] [1, 2, 3]).store = [1, 3] ∧
    (send_daily_quiz c2gen c2deliver [] [1, 2, 3]).sent.contains 1 = true ∧
    (send_daily_quiz c2gen c2deliver [] [1, 2, 3]).sent.contains 3 = false := by decide

/-- Claim C3: with all four options present and correct label B,
selecting B yields the success reply naming B, its option text and the
short explanation; selecting A, C or D yields the failure reply naming
the selected label with its text and B with its text as correct.  In
every case the stored question is cleared. -/
theorem claim_C3 (q expl topic : PyStr) (opts : List (PyStr × PyStr)) (a b c d : PyStr)
    (flag : Bool) (det : Except PyStr PyStr)
    (hA : dictGet? opts (pys "A") = some a) (hB : dictGet? opts (pys "B") = some b)
    (hC : dictGet? opts (pys "C") = some c) (hD : dictGet? opts (pys "D") = some d) :
    handle_answer ⟨some ⟨q, opts, pys "B", expl⟩, some topic, flag⟩ (pys "answer_B") det =
      .ok (correct_message (pys "B") b expl) ⟨none, some topic, flag⟩ ∧
    handle_answer ⟨some ⟨q, opts, pys "B", expl⟩, some topic, flag⟩ (pys "answer_A") det =
      .ok (incorrect_message (pys "A") a (pys "B") b expl) ⟨none, some topic, flag⟩ ∧
    handle_answer ⟨some ⟨q, opts, pys "B", expl⟩, some topic, flag⟩ (pys "answer_C") det =
      .ok (incorrect_message (pys "C") c (pys "B") b expl) ⟨none, some topic, flag⟩ ∧
    handle_answer ⟨some ⟨q, opts, pys "B", expl⟩, some topic, flag⟩ (pys "answer_D") det =
      .ok (incorrect_message (pys "D") d (pys "B") b expl) ⟨none, some topic, flag⟩ := by
  refine ⟨?_, ?_, ?_, ?_⟩
  · have hne : ¬ (pys "answer_B" = pys "explain") := by decide
    have hsel : pyReplace (pys "answer_B") (pys "answer_") [] = pys "B" := rfl
    simp [handle_answer, hne, hsel, hB]
  · have hne : ¬ (pys "answer_A" = pys "explain") := by decide
    have hsel : pyReplace (pys "answer_A") (pys "answer_") [] = pys "A" := rfl
    have hne2 : ¬ ((pys "A" : PyStr) = pys "B") := by decide
    simp [handle_answer, hne, hsel, hne2, hA, hB]
  · have hne : ¬ (pys "answer_C" = pys "explain") := by decide
    have hsel : pyReplace (pys "answer_C") (pys "answer_") [] = pys "C" := rfl
    have hne2 : ¬ ((pys "C" : PyStr) = pys "B") := by decide
    simp [handle_answer, hne, hsel, hne2, hC, hB]
  · have hne : ¬ (pys "answer_D" = pys "explain") := by decide
    have hsel : pyReplace (pys "answer_D") (pys "answer_") [] = pys "D" := rfl
    have hne2 : ¬ ((pys "D" : PyStr) = pys "B") := by decide
    simp [handle_answer, hne, hsel, hne2, hD, hB]

/-- Witness for C3 at a concrete stored question. -/
theorem claim_C3_witness :
    handle_answer ⟨some c6q, some (pys "Rust"), false⟩ (pys "answer_B") (.ok (pys "x")) =
      .ok (correct_message (pys "B") (pys "b") (pys "e"))
        ⟨none, some (pys "Rust"), false⟩ ∧
    handle_answer ⟨some c6q, some (pys "Rust"), false⟩ (pys "answer_C") (.ok (pys "x")) =
      .ok (incorrect_message (pys "C") (pys "c") (pys "B") (pys "b") (pys "e"))
        ⟨none, some (pys "Rust"), false⟩ := by
  have h := claim_C3 (pys "q?") (pys "e") (pys "Rust")
      [(pys "A", pys "a"), (pys "B", pys "b"), (pys "C", pys "c"), (pys "D", pys "d")]
      (pys "a") (pys "b") (pys "c") (pys "d") false (.ok (pys "x"))
      (by decide) (by decide) (by decide) (by decide)
  exact ⟨h.1, h.2.2.1⟩

/-- Claim C1, corrected.  For a line list with exactly one recognized
line per marker and arbitrary further lines recognized by none, the
parser fills every field from its line and permuting the lines never
changes any field.  The claim that each field is the prefix-stripped,
trimmed remainder of its line is false in general, because the code
removes every occurrence of the marker from the line (see the
counterexample); it holds under the extra assumption that no marker
occurs again in the remainder of its own line. -/
theorem claim_C1 (lines : List PyStr) (lq la lb lc ld lca le : PyStr)
    (hq : lines.filter (lineMatches qMark) = [lq])
    (ha : lines.filter (lineMatches aMark) = [la])
    (hb : lines.filter (lineMatches bMark) = [lb])
    (hc : lines.filter (lineMatches cMark) = [lc])
    (hd : lines.filter (lineMatches dMark) = [ld])
    (hca : lines.filter (lineMatches caMark) = [lca])
    (he : lines.filter (lineMatches eMark) = [le])
    (nq : containsSub qMark ((pyStrip lq).drop qMark.length) = false)
    (na : containsSub aMark ((pyStrip la).drop aMark.length) = false)
    (nb : containsSub bMark ((pyStrip lb).drop bMark.length) = false)
    (nc : containsSub cMark ((pyStrip lc).drop cMark.length) = false)
    (nd : containsSub dMark ((pyStrip ld).drop dMark.length) = false)
    (nca : containsSub caMark ((pyStrip lca).drop caMark.length) = false)
    (nex : containsSub eMark ((pyStrip le).drop eMark.length) = false) :
    ((parse_question_lines lines).question = specRemainder qMark lq ∧
     dictGet? (parse_question_lines lines).options (pys "A") = some (specRemainder aMark la) ∧
     dictGet? (parse_question_lines lines).options (pys "B") = some (specRemainder bMark lb) ∧
     dictGet? (parse_question_lines lines).options (pys "C") = some (specRemainder cMark lc) ∧
     dictGet? (parse_question_lines lines).options (pys "D") = some (specRemainder dMark ld) ∧
     (parse_question_lines lines).correct_answer = specRemainder caMark lca ∧
     (parse_question_lines lines).explanation = specRemainder eMark le) ∧
    ∀ lines2, lines.Perm lines2 →
      (parse_question_lines lines2).question = (parse_question_lines lines).question ∧
      dictGet? (parse_question_lines lines2).options (pys "A") =
        dictGet? (parse_question_lines lines).options (pys "A") ∧
      dictGet? (parse_question_lines lines2).options (pys "B") =
        dictGet? (parse_question_lines lines).options (pys "B") ∧
      dictGet? (parse_question_lines lines2).options (pys "C") =
        dictGet? (parse_question_lines lines).options (pys "C") ∧
      dictGet? (parse_question_lines lines2).options (pys "D") =
        dictGet? (parse_question_lines lines).options (pys "D") ∧
      (parse_question_lines lines2).correct_answer =
        (parse_question_lines lines).correct_answer ∧
      (parse_question_lines lines2).explanation =
        (parse_question_lines lines).explanation := by
  obtain ⟨f1, f2, f3, f4, f5, f6, f7⟩ :=
    parse_fields lines lq la lb lc ld lca le hq ha hb hc hd hca he
  have mq : lineMatches qMark lq = true :=
    List.of_mem_filter (p := lineMatches qMark) (by rw [hq]; exact List.mem_singleton_self lq)
  have mA : lineMatches aMark la = true :=
    List.of_mem_filter (p := lineMatches aMark) (by rw [ha]; exact List.mem_singleton_self la)
  have mB : lineMatches bMark lb = true :=
    List.of_mem_filter (p := lineMatches bMark) (by rw [hb]; exact List.mem_singleton_self lb)
  have mC : lineMatches cMark lc = true :=
    List.of_mem_filter (p := lineMatches cMark) (by rw [hc]; exact List.mem_singleton_self lc)
  have mD : lineMatches dMark ld = true :=
    List.of_mem_filter (p := lineMatches dMark) (by rw [hd]; exact List.mem_singleton_self ld)
  have mCA : lineMatches caMark lca = true :=
    List.of_mem_filter (p := lineMatches caMark) (by rw [hca]; exact List.mem_singleton_self lca)
  have mE : lineMatches eMark le = true :=
    List.of_mem_filter (p := lineMatches eMark) (by rw [he]; exact List.mem_singleton_self le)
  have e1 := extractField_eq_specRemainder qMark lq (by decide) mq nq
  have e2 := extractField_eq_specRemainder aMark la (by decide) mA na
  have e3 := extractField_eq_specRemainder bMark lb (by decide) mB nb
  have e4 := extractField_eq_specRemainder cMark lc (by decide) mC nc
  have e5 := extractField_eq_specRemainder dMark ld (by decide) mD nd
  have e6 := extractField_eq_specRemainder caMark lca (by decide) mCA nca
  have e7 := extractField_eq_specRemainder eMark le (by decide) mE nex
  refine ⟨⟨f1.trans e1, f2.trans (congrArg some e2), f3.trans (congrArg some e3),
    f4.trans (congrArg some e4), f5.trans (congrArg some e5),
    f6.trans e6, f7.trans e7⟩, ?_⟩
  intro lines2 hperm
  have filt : ∀ m : PyStr → Bool, ∀ l0 : PyStr, lines.filter m = [l0] →
      lines2.filter m = [l0] := by
    intro m l0 hf
    have hp := List.Perm.filter m hperm
    rw [hf] at hp
    exact (List.singleton_perm.mp hp).symm
  obtain ⟨g1, g2, g3, g4, g5, g6, g7⟩ :=
    parse_fields lines2 lq la lb lc ld lca le (filt _ _ hq) (filt _ _ ha) (filt _ _ hb)
      (filt _ _ hc) (filt _ _ hd) (filt _ _ hca) (filt _ _ he)
  exact ⟨g1.trans f1.symm, g2.trans f2.symm, g3.trans f3.symm, g4.trans f4.symm,
    g5.trans f5.symm, g6.trans f6.symm, g7.trans f7.symm⟩

/-- Witness for C1 at a concrete scrambled contract with a prose line,
including one concrete permutation. -/
theorem claim_C1_witness :
    (parse_question_lines w1lines).question = specRemainder qMark (pys "Question: q?") ∧
    dictGet? (parse_question_lines w1lines).options (pys "B") =
      some (specRemainder bMark (pys "B) b")) ∧
    (parse_question_lines w1lines).correct_answer =
      specRemainder caMark (pys "Correct Answer: B") ∧
    (parse_question_lines w1lines2).correct_answer =
      (parse_question_lines w1lines).correct_answer := by
  have h := claim_C1 w1lines (pys "Question: q?") (pys "A) a") (pys "B) b") (pys "C) c")
      (pys "D) d") (pys "Correct Answer: B") (pys "Explanation: e")
      (by decide) (by decide) (by decide) (by decide) (by decide) (by decide) (by decide)
      (by decide) (by decide) (by decide) (by decide) (by decide) (by decide) (by decide)
  exact ⟨h.1.1, h.1.2.2.1, h.1.2.2.2.2.2.1, (h.2 w1lines2 (by decide)).2.2.2.2.2.1⟩

/-- Counterexample for C1 as stated: in a well-formed line list whose
stem line reads "Question: Question: twice" the parser stores "twice"
(both marker occurrences removed), not the prefix-stripped remainder
"Question: twice". -/
theorem claim_C1_counterexample :
    cex1lines.filter (lineMatches qMark) = [pys "Question: Question: twice"] ∧
    cex1lines.filter (lineMatches aMark) = [pys "A) a"] ∧
    cex1lines.filter (lineMatches bMark) = [pys "B) b"] ∧
    cex1lines.filter (lineMatches cMark) = [pys "C) c"] ∧
    cex1lines.filter (lineMatches dMark) = [pys "D) d"] ∧
    cex1lines.filter (lineMatches caMark) = [pys "Correct Answer: A"] ∧
    cex1lines.filter (lineMatches eMark) = [pys "Explanation: e"] ∧
    (parse_question_lines cex1lines).question = pys "twice" ∧
    specRemainder qMark (pys "Question: Question: twice") = pys "Question: twice" ∧
    ((pys "twice" : PyStr) == pys "Question: twice") = false := by decide

end QuizBot
